import Mathlib

/-
Shallow embedding of the gb-rs DMG emulator core (src/src) in Lean 4,
with theorems settling the frozen claims about its specification.

Machine integers are modelled as `Nat` with explicit `% 256` / `% 65536`
where the source relies on wrapping; `overflowing_add` and friends are
modelled with explicit sum/compare.  Fallible code (Rust panics from
`todo!`, `unreachable!`, `panic!` and `.unwrap()`) is modelled with
`Option` / dedicated result types.  Fixed-size byte arrays are modelled
as functions `Nat → Nat` indexed from 0, matching the source's boxed
arrays.
-/

set_option maxRecDepth 8192

namespace GB

/-! ## Timer (src/src/timer.rs) -/

/-- Timer state: TAC (`control`), DIV (`divider`), TIMA (`counter`),
TMA (`modulo`) plus the two internal accumulators.  In the source
`control`, `divider`, `counter`, `modulo`, `divider_counter` are `u8`
and `counter_counter` is `u16`. -/
structure Timer where
  control : Nat
  divider : Nat
  counter : Nat
  modulo : Nat
  divider_counter : Nat
  counter_counter : Nat
deriving Repr, DecidableEq

namespace Timer

/-- `Timer::is_enabled`: TAC bit 2. -/
def is_enabled (t : Timer) : Bool := t.control &&& 0b100 == 0b100

/-- `Timer::cycle_speed`: clock period in M-states selected by TAC bits 1..0. -/
def cycle_speed (t : Timer) : Nat :=
  match t.control &&& 0b11 with
  | 0 => 256
  | 1 => 4
  | 2 => 16
  | _ => 64

/-- `Timer::increment_div`: `overflowing_add` of the DIV accumulator;
on overflow DIV is `wrapping_add(1)`-ed, otherwise the source sets DIV
to `0` (the `else` branch returns `0`, not the old divider).
Returns (new divider, new divider_counter). -/
def increment_div (t : Timer) (cycles : Nat) : Nat × Nat :=
  let sum := t.divider_counter + cycles
  if sum > 255 then ((t.divider + 1) % 256, sum % 256)
  else (0, sum % 256)

/-- One TIMA increment: `counter.overflowing_add(1)`; on overflow the
counter is reloaded from TMA (`modulo`), otherwise it is the successor. -/
def tickTima (modulo c : Nat) : Nat := if c + 1 > 255 then modulo else c + 1

/-- The `while counter_counter >= cycle_target` loop of `Timer::step`,
accumulating the overflow flag.  `target` is positive for every
reachable TAC value (`cycle_speed * 4 ∈ {1024, 16, 64, 256}`), which is
what makes the source loop terminate.  Returns
(counter_counter, counter, did_overflow). -/
def timaLoop (cc target counter modulo : Nat) (ov : Bool) : Nat × Nat × Bool :=
  if _h : 0 < target ∧ target ≤ cc then
    timaLoop (cc - target) target (tickTima modulo counter) modulo
      (ov || decide (counter + 1 > 255))
  else
    (cc, counter, ov)
termination_by cc
decreasing_by omega

/-- `Timer::step`: advance DIV unconditionally, then (if TAC.Enable)
add the delta to the TIMA accumulator and loop.  Returns the new timer
and whether a Timer interrupt should be requested.  The accumulator
addition (`counter_counter += u16::from(cycles)`) is written with plain
`Nat` addition: in every state the source can reach, the accumulator is
below the cycle target (≤ 1024) and the delta is a byte, so the `u16`
sum never overflows. -/
def step (t : Timer) (cycles : Nat) : Timer × Bool :=
  let dv := t.increment_div cycles
  let t' := { t with divider := dv.1, divider_counter := dv.2 }
  if t'.is_enabled then
    let cycle_target := t'.cycle_speed * 4
    let cc := t'.counter_counter + cycles
    let r := timaLoop cc cycle_target t'.counter t'.modulo false
    ({ t' with counter_counter := r.1, counter := r.2.1 }, r.2.2)
  else
    (t', false)

/-- Whether iterating `tickTima` from `c` overflows within the first
`k` increments (each overflow is the `counter.overflowing_add(1)` test
`counter + 1 > 255` of the loop body). -/
def hitsOverflow (modulo c k : Nat) : Bool :=
  match k with
  | 0 => false
  | k + 1 => decide (c + 1 > 255) || hitsOverflow modulo (tickTima modulo c) k

end Timer

/-! ## Joypad (src/src/joypad.rs) -/

/-- Joypad state.  `input_select` is the latched upper nibble (bits 4..7
of the last JOYP write, so its bit 0 is JOYP bit 4); `buttons` and
`dpad` are 4-bit groups with a set bit meaning pressed. -/
structure Joypad where
  input_select : Nat
  buttons : Nat
  dpad : Nat
deriving Repr, DecidableEq

namespace Joypad

/-- `Joypad::write_joypad`: latch bits 4..7 of the written value
(the selection nibble); the lower nibble is read-only. -/
def write_joypad (j : Joypad) (value : Nat) : Joypad :=
  { j with input_select := (value >>> 4) &&& 0xF }

/-- `Joypad::button_nibble`: active-low button bits (`!` on a 4-bit
value is XOR with 0xF). -/
def button_nibble (j : Joypad) : Nat := (j.buttons &&& 0xF) ^^^ 0xF

/-- `Joypad::dpad_nibble`: active-low d-pad bits. -/
def dpad_nibble (j : Joypad) : Nat := (j.dpad &&& 0xF) ^^^ 0xF

/-- `Joypad::read_joypad`.  The low two bits of the latched nibble are
the `NibbleSelect` (0b01 = buttons, 0b10 = d-pad); the fallback
variants (0b00 and 0b11) hit a `todo!` panic in the source, modelled as
`none`. -/
def read_joypad (j : Joypad) : Option Nat :=
  let upper := j.input_select
  match j.input_select &&& 0b11 with
  | 0b01 => some ((upper <<< 4) ||| j.button_nibble)
  | 0b10 => some ((upper <<< 4) ||| j.dpad_nibble)
  | _ => none

end Joypad

/-! ## GPU (src/src/gpu.rs, src/src/gpu/tile.rs) -/

/-- `Mode`: the four scanline states. -/
inductive Mode where
  | OamScan
  | Drawing
  | HBlank
  | VBlank
deriving Repr, DecidableEq

/-- GPU state.  `vram`, `oam` and `buffer` are byte arrays modelled as
functions; `tile_set` maps (tile index, row index) to the decoded tile
row, kept as the underlying two plane bytes (LSB plane, MSB plane) of
the source's 16-bit `TileRow`. -/
structure Gpu where
  vram : Nat → Nat
  oam : Nat → Nat
  tile_set : Nat → Nat → Nat × Nat
  buffer : Nat → Nat
  cycles : Nat
  line : Nat
  mode : Mode
  lcd_control : Nat
  background_colours : Nat
  scroll_y : Nat
  scroll_x : Nat

/-- Pointwise array store, modelling `array[i] = v`. -/
def upd (f : Nat → Nat) (i v : Nat) : Nat → Nat :=
  fun j => if j = i then v else f j

namespace Gpu

/-- `Gpu::default()`: zeroed state, mode `HBlank`. -/
def default : Gpu :=
  { vram := fun _ => 0, oam := fun _ => 0, tile_set := fun _ _ => (0, 0),
    buffer := fun _ => 0, cycles := 0, line := 0, mode := Mode.HBlank,
    lcd_control := 0, background_colours := 0, scroll_y := 0, scroll_x := 0 }

/-- `LCDControl::DisplayEnabled` (bit 7). -/
def displayEnabled (g : Gpu) : Bool := g.lcd_control &&& 0x80 ≠ 0

/-- `LCDExt::bg_tilemap_address` (LCDC bit 3). -/
def bg_tilemap_address (lcd : Nat) : Nat :=
  if lcd &&& 0x08 ≠ 0 then 0x9C00 else 0x9800

/-- `TileRow::get_tile` over the stored plane bytes: bit 7 is the
leftmost pixel; the even (first) byte is the LSB plane. -/
def tileRowPixel (row : Nat × Nat) (i : Nat) : Nat :=
  2 * ((row.2 >>> (7 - i)) &&& 1) + ((row.1 >>> (7 - i)) &&& 1)

/-- `TileRow::iter`: the eight pixels of one tile row, leftmost first. -/
def tileRowPixels (row : Nat × Nat) : List Nat :=
  (List.range 8).map (tileRowPixel row)

/-- The `lookup_colour` closure of `Gpu::render_line`: index into the
packed BGP byte (LSB-first bit array, first bit becomes the high bit of
the shade index), then one of four RGB grays. -/
def lookupColour (bgp pixel : Nat) : Nat × Nat × Nat :=
  let value := 2 * ((bgp >>> (pixel * 2)) &&& 1) + ((bgp >>> (pixel * 2 + 1)) &&& 1)
  match value with
  | 0 => (255, 255, 255)
  | 1 => (170, 170, 170)
  | 2 => (85, 85, 85)
  | _ => (0, 0, 0)

/-- `Gpu::render_line`: draw background pixels of scanline `line` into
the RGB framebuffer.  The pixel stream starts at the tilemap byte for
`scroll_x / 8`, expands each tilemap byte through the tile cache and
drops `scroll_x % 8` leading pixels; writing stops at the end of the
160-pixel row (and when the stream runs dry, as the source's `zip`
does). -/
def render_line (g : Gpu) : Gpu :=
  let tile_x := g.scroll_x / 8
  let tile_y := (g.line + g.scroll_y) % 256
  let start := (bg_tilemap_address g.lcd_control - 0x8000) + 32 * (tile_y / 8) + tile_x
  let pixels : List Nat :=
    (((List.range (0x2000 - start)).map fun i =>
        tileRowPixels (g.tile_set (g.vram (start + i)) (tile_y % 8))).flatten).drop
      (g.scroll_x % 8)
  let rowStart := 3 * (160 * g.line)
  let buf := fun j =>
    if rowStart ≤ j ∧ j < rowStart + 3 * 160 ∧ j < 3 * (160 * 144) then
      match pixels.get? ((j - rowStart) / 3) with
      | some p =>
        let c := lookupColour g.background_colours p
        match (j - rowStart) % 3 with
        | 0 => c.1
        | 1 => c.2.1
        | _ => c.2.2
      | none => g.buffer j
    else g.buffer j
  { g with buffer := buf }

/-- `Gpu::step`: advance the scanline state machine by a T-cycle delta.
Frozen while LCDC.DisplayEnabled is clear.  `cycles` is a `u16`
(`wrapping_add`), `line` a `u8`. -/
def step (g : Gpu) (cycles : Nat) : Gpu :=
  if !g.displayEnabled then g
  else
    let g := { g with cycles := (g.cycles + cycles) % 65536 }
    match g.mode with
    | Mode.OamScan =>
        if g.cycles ≥ 80 then { g with cycles := g.cycles % 80, mode := Mode.Drawing }
        else g
    | Mode.Drawing =>
        if g.cycles ≥ 172 then
          render_line { g with cycles := g.cycles % 172, mode := Mode.HBlank }
        else g
    | Mode.HBlank =>
        if g.cycles ≥ 204 then
          let g := { g with cycles := g.cycles % 204, line := (g.line + 1) % 256 }
          if g.line ≥ 144 then { g with mode := Mode.VBlank }
          else { g with mode := Mode.OamScan }
        else g
    | Mode.VBlank =>
        if g.cycles ≥ 456 then
          let g := { g with cycles := g.cycles % 456, line := (g.line + 1) % 256 }
          if g.line ≥ 154 then { g with mode := Mode.OamScan, line := 0 }
          else g
        else g

/-- `Gpu::read_vram`. -/
def read_vram (g : Gpu) (index : Nat) : Nat := g.vram index

/-- `Gpu::write_vram`: store the byte, and when it lands in the tile
data region (index < 0x1800) refresh the cached tile row from the
even/odd byte pair. -/
def write_vram (g : Gpu) (index value : Nat) : Gpu :=
  let vram' := upd g.vram index value
  if index ≥ 0x1800 then { g with vram := vram' }
  else
    let ni := index - index % 2
    let row := (vram' ni, vram' (ni + 1))
    { g with vram := vram',
             tile_set := fun t r =>
               if t = index / 16 ∧ r = index % 16 / 2 then row
               else g.tile_set t r }

/-- `Gpu::read_oam`. -/
def read_oam (g : Gpu) (address : Nat) : Nat := g.oam address

/-- `Gpu::write_oam`. -/
def write_oam (g : Gpu) (address value : Nat) : Gpu :=
  { g with oam := upd g.oam address value }

end Gpu

/-! ## Memory bus (src/src/cpu/memorybus.rs) -/

/-- Bus state.  `interrupt_flag` (IF) and `interrupt_enabled` (IE) are
the raw 5-bit values of the source's `BitFlags<InterruptFlag>`
(VBlank = 1, LcdStat = 2, Timer = 4, Serial = 8, Joypad = 16). -/
structure MemoryBus where
  boot_rom : Option (Nat → Nat)
  rom_bank_0 : Nat → Nat
  rom_bank_n : Nat → Nat
  external_ram : Nat → Nat
  wram : Nat → Nat
  gpu : Gpu
  timer : Timer
  joypad : Joypad
  hram : Nat → Nat
  interrupt_flag : Nat
  interrupt_enabled : Nat
  test_mode : Bool

namespace MemoryBus

/-- `MemoryBus::new`: `copy_rom` copies up to 0x4000 bytes into each
bank (missing bytes stay zero); bank N is filled only when the
cartridge is longer than 0x4000 bytes, which coincides with reading the
slice from offset 0x4000 and zero-padding. -/
def new (boot_rom : Option (Nat → Nat)) (game_rom : List Nat) (test_mode : Bool) :
    MemoryBus :=
  { boot_rom := boot_rom,
    rom_bank_0 := fun i => if i < 0x4000 then game_rom.getD i 0 else 0,
    rom_bank_n := fun i => if i < 0x4000 then game_rom.getD (0x4000 + i) 0 else 0,
    external_ram := fun _ => 0,
    wram := fun _ => 0,
    gpu := Gpu.default,
    timer := ⟨0, 0, 0, 0, 0, 0⟩,
    joypad := ⟨0, 0, 0⟩,
    hram := fun _ => 0,
    interrupt_flag := 0,
    interrupt_enabled := 0,
    test_mode := test_mode }

/-- `MemoryBus::read_io_register`: the handled registers; every other
address hits a `todo!` panic (`none`).  0xFF44 is stubbed to 0x90 in
test mode. -/
def read_io_register (b : MemoryBus) (address : Nat) : Option Nat :=
  if address = 0xFF00 then b.joypad.read_joypad
  else if address = 0xFF04 then some b.timer.divider
  else if address = 0xFF05 then some b.timer.counter
  else if address = 0xFF06 then some b.timer.modulo
  else if address = 0xFF07 then some b.timer.control
  else if address = 0xFF0F then some b.interrupt_flag
  else if address = 0xFF26 then some 0
  else if address = 0xFF40 then some b.gpu.lcd_control
  else if address = 0xFF42 then some b.gpu.scroll_y
  else if address = 0xFF43 then some b.gpu.scroll_x
  else if address = 0xFF44 then some (if b.test_mode then 0x90 else b.gpu.line)
  else if address = 0xFF4D then some 0
  else if address = 0xFFFF then some b.interrupt_enabled
  else none

/-- `MemoryBus::read_byte`: the address decoder.  The `_` arm
(0xFEA0–0xFEFF) is a `todo!` panic, modelled as `none`. -/
def read_byte (b : MemoryBus) (address : Nat) : Option Nat :=
  if address ≤ 0xFF then
    match b.boot_rom with
    | some boot => some (boot address)
    | none => some (b.rom_bank_0 address)
  else if 0x100 ≤ address ∧ address ≤ 0x3FFF then some (b.rom_bank_0 address)
  else if 0x4000 ≤ address ∧ address ≤ 0x7FFF then some (b.rom_bank_n (address - 0x4000))
  else if 0xA000 ≤ address ∧ address ≤ 0xBFFF then some (b.external_ram (address - 0xA000))
  else if 0xC000 ≤ address ∧ address ≤ 0xDFFF then some (b.wram (address - 0xC000))
  else if 0xE000 ≤ address ∧ address ≤ 0xFDFF then some (b.wram (address - 0xE000))
  else if 0xFE00 ≤ address ∧ address ≤ 0xFE9F then some (b.gpu.read_oam (address - 0xFE00))
  else if 0x8000 ≤ address ∧ address ≤ 0x9FFF then some (b.gpu.read_vram (address - 0x8000))
  else if (0xFF00 ≤ address ∧ address ≤ 0xFF7F) ∨ address = 0xFFFF then
    b.read_io_register address
  else if 0xFF80 ≤ address ∧ address ≤ 0xFFFE then some (b.hram (address - 0xFF80))
  else none

/-- `MemoryBus::write_io_register`.  IF and IE writes go through
`BitFlags::from_bits(value).unwrap()`, which panics when any of the
three top bits is set; LCDC covers all eight bits so its `from_bits`
always succeeds.  Serial and audio registers are accepted and ignored;
any other address hits a `todo!` panic. -/
def write_io_register (b : MemoryBus) (address value : Nat) : Option MemoryBus :=
  if address = 0xFF00 then some { b with joypad := b.joypad.write_joypad value }
  else if address = 0xFF01 then some b
  else if address = 0xFF02 then some b
  else if address = 0xFF04 then some { b with timer := { b.timer with divider := 0 } }
  else if address = 0xFF05 then some { b with timer := { b.timer with counter := value } }
  else if address = 0xFF06 then some { b with timer := { b.timer with modulo := value } }
  else if address = 0xFF07 then some { b with timer := { b.timer with control := value } }
  else if address = 0xFF0F then
    if value &&& 0xE0 = 0 then some { b with interrupt_flag := value } else none
  else if address = 0xFF11 then some b
  else if address = 0xFF12 then some b
  else if address = 0xFF13 then some b
  else if address = 0xFF14 then some b
  else if address = 0xFF24 then some b
  else if address = 0xFF25 then some b
  else if address = 0xFF26 then some b
  else if address = 0xFF40 then some { b with gpu := { b.gpu with lcd_control := value } }
  else if address = 0xFF42 then some { b with gpu := { b.gpu with scroll_y := value } }
  else if address = 0xFF43 then some { b with gpu := { b.gpu with scroll_x := value } }
  else if address = 0xFF47 then
    some { b with gpu := { b.gpu with background_colours := value } }
  else if address = 0xFF4D then some b
  else if address = 0xFF50 then some { b with boot_rom := none }
  else if address = 0xFFFF then
    if value &&& 0xE0 = 0 then some { b with interrupt_enabled := value } else none
  else none

/-- `MemoryBus::write_byte`.  Note the two ROM arms log a warning and
then store the value into the ROM bank anyway. -/
def write_byte (b : MemoryBus) (address value : Nat) : Option MemoryBus :=
  if address ≤ 0x3FFF then
    some { b with rom_bank_0 := upd b.rom_bank_0 address value }
  else if 0x4000 ≤ address ∧ address ≤ 0x7FFF then
    some { b with rom_bank_n := upd b.rom_bank_n (address - 0x4000) value }
  else if 0xA000 ≤ address ∧ address ≤ 0xBFFF then
    some { b with external_ram := upd b.external_ram (address - 0xA000) value }
  else if 0xC000 ≤ address ∧ address ≤ 0xDFFF then
    some { b with wram := upd b.wram (address - 0xC000) value }
  else if 0xE000 ≤ address ∧ address ≤ 0xFDFF then
    some { b with wram := upd b.wram (address - 0xE000) value }
  else if 0xFE00 ≤ address ∧ address ≤ 0xFE9F then
    some { b with gpu := b.gpu.write_oam (address - 0xFE00) value }
  else if 0x8000 ≤ address ∧ address ≤ 0x9FFF then
    some { b with gpu := b.gpu.write_vram (address - 0x8000) value }
  else if (0xFF00 ≤ address ∧ address ≤ 0xFF7F) ∨ address = 0xFFFF then
    b.write_io_register address value
  else if 0xFF80 ≤ address ∧ address ≤ 0xFFFE then
    some { b with hram := upd b.hram (address - 0xFF80) value }
  else none

/-- `MemoryBus::read_word`: two byte reads, little-endian.  The
`address + 1` is a `u16` addition, which in a debug build panics at
0xFFFF rather than wrapping. -/
def read_word (b : MemoryBus) (address : Nat) : Option Nat :=
  if address + 1 > 0xFFFF then none
  else do
    let lo ← b.read_byte address
    let hi ← b.read_byte (address + 1)
    pure (lo + 256 * hi)

/-- `MemoryBus::write_word`: two byte writes, little-endian. -/
def write_word (b : MemoryBus) (address value : Nat) : Option MemoryBus :=
  if address + 1 > 0xFFFF then none
  else do
    let b ← b.write_byte address (value &&& 0xFF)
    b.write_byte (address + 1) ((value >>> 8) &&& 0xFF)

/-- `MemoryBus::slice_from`: the four bytes at `pc..pc+3` (u16
additions, so a debug build panics near the top of the address
space). -/
def slice_from (b : MemoryBus) (pc : Nat) : Option (List Nat) :=
  if pc + 3 > 0xFFFF then none
  else do
    let b0 ← b.read_byte pc
    let b1 ← b.read_byte (pc + 1)
    let b2 ← b.read_byte (pc + 2)
    let b3 ← b.read_byte (pc + 3)
    pure [b0, b1, b2, b3]

/-- `MemoryBus::is_interrupt_pending`: IE and IF intersect. -/
def is_interrupt_pending (b : MemoryBus) : Bool :=
  b.interrupt_enabled &&& b.interrupt_flag ≠ 0

/-- `MemoryBus::try_get_first_interrupt`: lowest set bit of IE ∧ IF,
in priority order VBlank, LcdStat, Timer, Serial, Joypad. -/
def try_get_first_interrupt (b : MemoryBus) : Option Nat :=
  let triggers := b.interrupt_enabled &&& b.interrupt_flag
  if triggers &&& 1 ≠ 0 then some 1
  else if triggers &&& 2 ≠ 0 then some 2
  else if triggers &&& 4 ≠ 0 then some 4
  else if triggers &&& 8 ≠ 0 then some 8
  else if triggers &&& 16 ≠ 0 then some 16
  else none

/-- `MemoryBus::pop_interrupt_handler_address`: clear the
highest-priority pending bit from IF and return its vector.  (Dead code
in the source: nothing ever calls it.) -/
def pop_interrupt_handler_address (b : MemoryBus) : Option (MemoryBus × Nat) :=
  match b.try_get_first_interrupt with
  | none => none
  | some flag =>
      some ({ b with interrupt_flag := b.interrupt_flag &&& (31 - flag) },
            if flag = 1 then 0x40
            else if flag = 2 then 0x48
            else if flag = 4 then 0x50
            else if flag = 8 then 0x58
            else 0x60)

end MemoryBus

/-- The observable effect of calling `read_byte` through its `&self`
receiver: the byte together with the (necessarily unchanged) bus the
caller gets back. -/
def MemoryBus.readByteCall (b : MemoryBus) (address : Nat) : Option (Nat × MemoryBus) :=
  (b.read_byte address).map fun v => (v, b)

/-- Two consecutive `read_byte` calls of the same address, threading
the bus state through both. -/
def MemoryBus.twoReads (b : MemoryBus) (address : Nat) : Option (Nat × Nat × MemoryBus) := do
  let (v1, b1) ← b.readByteCall address
  let (v2, b2) ← b1.readByteCall address
  pure (v1, v2, b2)

/-! ## Instruction values (src/src/disassembler/instruction.rs)

The checked-in `instruction.rs` is a stale iteration: it lacks the
`FromSp` load, `Halt`, `Reti`, `Reset`, `Cpl`, `Scf`, `Ccf`, `Res` and
`Set` constructors that `disassembler.rs` and `cpu.rs` build and match
on.  The variants below are the union the decoder produces and the
executor consumes, which coincides with the spec's tagged-union list
("Ld, Arithmetic(alu, operand), AddHl(reg16), AddSp(i8), Bit/Res/Set,
Rot, Rla/Rra/Rlca/Rrca, JR, JP, Call, Ret, Reti, Rst, Push/Pop,
Inc/Dec, Inc16/Dec16, Nop, Halt, Di, Ei, Daa, Cpl, Scf, Ccf"). -/

/-- 8-bit operand register, `FromPrimitive` order B,C,D,E,H,L,(HL),A. -/
inductive Register where
  | B | C | D | E | H | L | HLIndirect | A
deriving Repr, DecidableEq

/-- 16-bit register table BC,DE,HL,SP. -/
inductive Register16 where
  | BC | DE | HL | SP
deriving Repr, DecidableEq

/-- 16-bit push/pop table BC,DE,HL,AF. -/
inductive Register16Alt where
  | BC | DE | HL | AF
deriving Repr, DecidableEq

/-- Condition codes, `FromPrimitive` order NZ,Z,NC,C (Always last). -/
inductive JumpTest where
  | NotZero | Zero | NotCarry | Carry | Always
deriving Repr, DecidableEq

/-- ALU operation table. -/
inductive Alu where
  | Add | Adc | Sub | Sbc | And | Xor | Or | Cp
deriving Repr, DecidableEq

/-- Prefixed rotate/shift table. -/
inductive Rot where
  | Rlc | Rrc | Rl | Rr | Sla | Sra | Swap | Srl
deriving Repr, DecidableEq

/-- Load direction relative to A. -/
inductive Direction where
  | FromA | IntoA
deriving Repr, DecidableEq

/-- C register or immediate offset (for the 0xFF00 page loads). -/
inductive COrImmediate where
  | C | Immediate (value : Nat)
deriving Repr, DecidableEq

/-- HL or a 16-bit immediate. -/
inductive HLOrImmediate where
  | HL | Immediate (value : Nat)
deriving Repr, DecidableEq

/-- 8-bit register or immediate operand. -/
inductive RegisterOrImmediate where
  | Register (r : Register) | Immediate (value : Nat)
deriving Repr, DecidableEq

/-- Indirect address source for A loads. -/
inductive LoadIndirect where
  | BC | DE | HLDec | HLInc | Immediate (address : Nat)
deriving Repr, DecidableEq

/-- Load families. -/
inductive LoadType where
  | Indirect (it : LoadIndirect) (d : Direction)
  | Byte (r : Register) (src : RegisterOrImmediate)
  | Word (r : Register16) (src : HLOrImmediate)
  | LastByteAddress (src : COrImmediate) (d : Direction)
  | FromSp (target : HLOrImmediate) (offset : Int)
deriving Repr, DecidableEq

/-- The decoded instruction. -/
inductive Instruction where
  | Ld (lt : LoadType)
  | Arithmetic (alu : Alu) (src : RegisterOrImmediate)
  | AddHl (r : Register16)
  | AddSp (offset : Int)
  | Bit (n : Nat) (r : Register)
  | Res (n : Nat) (r : Register)
  | Set (n : Nat) (r : Register)
  | JR (cond : JumpTest) (relative : Int)
  | JP (cond : JumpTest) (target : HLOrImmediate)
  | Inc (r : Register)
  | Inc16 (r : Register16)
  | Dec (r : Register)
  | Dec16 (r : Register16)
  | Call (cond : JumpTest) (address : Nat)
  | Ret (cond : JumpTest)
  | Reti
  | Push (r : Register16Alt)
  | Pop (r : Register16Alt)
  | Rot (op : Rot) (r : Register)
  | Rlca | Rrca | Rla | Rra
  | Nop | Halt | Di | Ei | Daa | Cpl | Scf | Ccf
  | Reset (address : Nat)
deriving Repr, DecidableEq

/-- `Register::from_u8` (num_derive `FromPrimitive`). -/
def Register.from_u8 : Nat → Option Register
  | 0 => some .B
  | 1 => some .C
  | 2 => some .D
  | 3 => some .E
  | 4 => some .H
  | 5 => some .L
  | 6 => some .HLIndirect
  | 7 => some .A
  | _ => none

/-- `Register16::from_u8`. -/
def Register16.from_u8 : Nat → Option Register16
  | 0 => some .BC
  | 1 => some .DE
  | 2 => some .HL
  | 3 => some .SP
  | _ => none

/-- `Register16Alt::from_u8`. -/
def Register16Alt.from_u8 : Nat → Option Register16Alt
  | 0 => some .BC
  | 1 => some .DE
  | 2 => some .HL
  | 3 => some .AF
  | _ => none

/-- `JumpTest::from_u8`. -/
def JumpTest.from_u8 : Nat → Option JumpTest
  | 0 => some .NotZero
  | 1 => some .Zero
  | 2 => some .NotCarry
  | 3 => some .Carry
  | 4 => some .Always
  | _ => none

/-- `Alu::from_u8`. -/
def Alu.from_u8 : Nat → Option Alu
  | 0 => some .Add
  | 1 => some .Adc
  | 2 => some .Sub
  | 3 => some .Sbc
  | 4 => some .And
  | 5 => some .Xor
  | 6 => some .Or
  | 7 => some .Cp
  | _ => none

/-- `Rot::from_u8`. -/
def Rot.from_u8 : Nat → Option Rot
  | 0 => some .Rlc
  | 1 => some .Rrc
  | 2 => some .Rl
  | 3 => some .Rr
  | 4 => some .Sla
  | 5 => some .Sra
  | 6 => some .Swap
  | 7 => some .Srl
  | _ => none

/-! ## Decoder (src/src/disassembler.rs) -/

/-- Result of `parse_instruction`.  `ok` carries the remaining input
(the source's nom `IResult` pair); `errIncomplete` is the recoverable
nom error raised when the input runs out; `crash` models the panics
(`todo!`, `unreachable!`, `panic!("non-existent instruction")` and
`.unwrap()` failures) inside the decoder, which abort the program. -/
inductive ParseResult where
  | ok (rest : List Nat) (instruction : Instruction)
  | errIncomplete
  | crash
deriving Repr, DecidableEq

/-- `le_i8`: reinterpret a byte as a signed offset. -/
def toI8 (b : Nat) : Int :=
  if b % 256 < 128 then ((b % 256 : Nat) : Int) else ((b % 256 : Nat) : Int) - 256

/-- `prefixed_instruction`: decode the byte after the 0xCB prefix
through the (x, y, z) bit split. -/
def prefixed_instruction (i : List Nat) : ParseResult :=
  match i with
  | [] => ParseResult.errIncomplete
  | byte :: i =>
    let x := (byte >>> 6) &&& 0b11
    let y := (byte >>> 3) &&& 0b111
    let z := byte &&& 0b111
    match Register.from_u8 z with
    | none => ParseResult.crash
    | some reg =>
      if x = 0 then
        match Rot.from_u8 y with
        | some rot => ParseResult.ok i (.Rot rot reg)
        | none => ParseResult.crash
      else if x = 1 then ParseResult.ok i (.Bit y reg)
      else if x = 2 then ParseResult.ok i (.Res y reg)
      else if x = 3 then ParseResult.ok i (.Set y reg)
      else ParseResult.crash

/-- `parse_instruction`: the bit-structured opcode dispatch.  Undefined
DMG opcodes hit `panic!`/`todo!` arms and crash the program (`crash`);
running out of bytes is the only recoverable decode error. -/
def parse_instruction (i : List Nat) : ParseResult :=
  match i with
  | [] => ParseResult.errIncomplete
  | byte :: i =>
    let x := (byte &&& 0b11000000) >>> 6
    let y := (byte &&& 0b00111000) >>> 3
    let z := byte &&& 0b00000111
    let p := y >>> 1
    let q := y % 2
    if x = 0 then
      if z = 0 then
        if y = 0 then ParseResult.ok i .Nop
        else if y = 1 then
          match i with
          | lo :: hi :: i =>
              ParseResult.ok i (.Ld (.FromSp (.Immediate (lo + 256 * hi)) 0))
          | _ => ParseResult.errIncomplete
        else if y = 3 then
          match i with
          | b :: i => ParseResult.ok i (.JR .Always (toI8 b))
          | _ => ParseResult.errIncomplete
        else if 4 ≤ y ∧ y < 8 then
          match JumpTest.from_u8 (y - 4) with
          | none => ParseResult.crash
          | some condition =>
            match i with
            | b :: i => ParseResult.ok i (.JR condition (toI8 b))
            | _ => ParseResult.errIncomplete
        else ParseResult.crash
      else if z = 1 then
        if q = 0 then
          match i with
          | lo :: hi :: i =>
            match Register16.from_u8 p with
            | some reg => ParseResult.ok i (.Ld (.Word reg (.Immediate (lo + 256 * hi))))
            | none => ParseResult.crash
          | _ => ParseResult.errIncomplete
        else if q = 1 then
          match Register16.from_u8 p with
          | some reg => ParseResult.ok i (.AddHl reg)
          | none => ParseResult.crash
        else ParseResult.crash
      else if z = 2 then
        let direction :=
          if q = 0 then some Direction.FromA
          else if q = 1 then some Direction.IntoA
          else none
        let indirect_type :=
          if p = 0 then some LoadIndirect.BC
          else if p = 1 then some LoadIndirect.DE
          else if p = 2 then some LoadIndirect.HLInc
          else if p = 3 then some LoadIndirect.HLDec
          else none
        match direction, indirect_type with
        | some d, some it => ParseResult.ok i (.Ld (.Indirect it d))
        | _, _ => ParseResult.crash
      else if z = 3 then
        match Register16.from_u8 p with
        | some reg =>
          if q = 0 then ParseResult.ok i (.Inc16 reg)
          else if q = 1 then ParseResult.ok i (.Dec16 reg)
          else ParseResult.crash
        | none => ParseResult.crash
      else if z = 4 then
        match Register.from_u8 y with
        | some reg => ParseResult.ok i (.Inc reg)
        | none => ParseResult.crash
      else if z = 5 then
        match Register.from_u8 y with
        | some reg => ParseResult.ok i (.Dec reg)
        | none => ParseResult.crash
      else if z = 6 then
        match Register.from_u8 y with
        | some reg =>
          match i with
          | value :: i => ParseResult.ok i (.Ld (.Byte reg (.Immediate value)))
          | _ => ParseResult.errIncomplete
        | none => ParseResult.crash
      else if z = 7 then
        if y = 0 then ParseResult.ok i .Rlca
        else if y = 1 then ParseResult.ok i .Rrca
        else if y = 2 then ParseResult.ok i .Rla
        else if y = 3 then ParseResult.ok i .Rra
        else if y = 4 then ParseResult.ok i .Daa
        else if y = 5 then ParseResult.ok i .Cpl
        else if y = 6 then ParseResult.ok i .Scf
        else if y = 7 then ParseResult.ok i .Ccf
        else ParseResult.crash
      else ParseResult.crash
    else if x = 1 then
      if z = 6 ∧ y = 6 then ParseResult.ok i .Halt
      else if z < 8 then
        match Register.from_u8 y, Register.from_u8 z with
        | some target, some source =>
            ParseResult.ok i (.Ld (.Byte target (.Register source)))
        | _, _ => ParseResult.crash
      else ParseResult.crash
    else if x = 2 then
      match Register.from_u8 z, Alu.from_u8 y with
      | some reg, some alu => ParseResult.ok i (.Arithmetic alu (.Register reg))
      | _, _ => ParseResult.crash
    else if x = 3 then
      if z = 0 then
        if y < 4 then
          match JumpTest.from_u8 y with
          | some condition => ParseResult.ok i (.Ret condition)
          | none => ParseResult.crash
        else if y = 4 ∨ y = 6 then
          match i with
          | value :: i =>
            let direction := if y = 4 then Direction.FromA else Direction.IntoA
            ParseResult.ok i (.Ld (.LastByteAddress (.Immediate value) direction))
          | _ => ParseResult.errIncomplete
        else if y = 5 then
          match i with
          | b :: i => ParseResult.ok i (.AddSp (toI8 b))
          | _ => ParseResult.errIncomplete
        else if y = 7 then
          match i with
          | b :: i => ParseResult.ok i (.Ld (.FromSp .HL (toI8 b)))
          | _ => ParseResult.errIncomplete
        else ParseResult.crash
      else if z = 1 then
        if q = 0 then
          match Register16Alt.from_u8 p with
          | some reg => ParseResult.ok i (.Pop reg)
          | none => ParseResult.crash
        else if q = 1 then
          if p = 0 then ParseResult.ok i (.Ret .Always)
          else if p = 1 then ParseResult.ok i .Reti
          else if p = 2 then ParseResult.ok i (.JP .Always .HL)
          else if p = 3 then ParseResult.ok i (.Ld (.Word .SP .HL))
          else ParseResult.crash
        else ParseResult.crash
      else if z = 2 then
        if y < 4 then
          match i with
          | lo :: hi :: i =>
            match JumpTest.from_u8 y with
            | some condition =>
                ParseResult.ok i (.JP condition (.Immediate (lo + 256 * hi)))
            | none => ParseResult.crash
          | _ => ParseResult.errIncomplete
        else if y = 4 ∨ y = 6 then
          let direction := if y = 4 then Direction.FromA else Direction.IntoA
          ParseResult.ok i (.Ld (.LastByteAddress .C direction))
        else if y = 5 ∨ y = 7 then
          let direction := if y = 5 then Direction.FromA else Direction.IntoA
          match i with
          | lo :: hi :: i =>
              ParseResult.ok i (.Ld (.Indirect (.Immediate (lo + 256 * hi)) direction))
          | _ => ParseResult.errIncomplete
        else ParseResult.crash
      else if z = 3 then
        if y = 0 then
          match i with
          | lo :: hi :: i => ParseResult.ok i (.JP .Always (.Immediate (lo + 256 * hi)))
          | _ => ParseResult.errIncomplete
        else if y = 1 then prefixed_instruction i
        else if y = 6 then ParseResult.ok i .Di
        else if y = 7 then ParseResult.ok i .Ei
        else ParseResult.crash
      else if z = 4 then
        if y ≤ 3 then
          match i with
          | lo :: hi :: i =>
            match JumpTest.from_u8 y with
            | some condition => ParseResult.ok i (.Call condition (lo + 256 * hi))
            | none => ParseResult.crash
          | _ => ParseResult.errIncomplete
        else ParseResult.crash
      else if z = 5 then
        if q = 0 then
          match Register16Alt.from_u8 p with
          | some reg => ParseResult.ok i (.Push reg)
          | none => ParseResult.crash
        else if q = 1 then
          if p = 0 then
            match i with
            | lo :: hi :: i => ParseResult.ok i (.Call .Always (lo + 256 * hi))
            | _ => ParseResult.errIncomplete
          else ParseResult.crash
        else ParseResult.crash
      else if z = 6 then
        match Alu.from_u8 y with
        | some alu =>
          match i with
          | value :: i => ParseResult.ok i (.Arithmetic alu (.Immediate value))
          | _ => ParseResult.errIncomplete
        | none => ParseResult.crash
      else if z = 7 then ParseResult.ok i (.Reset (y * 8))
      else ParseResult.crash
    else ParseResult.crash

/-! ## Registers (src/src/cpu/registers.rs) -/

/-- The F register's four flag bits (`BitFlags<Flags>` in the source:
Zero 0x80, Subtraction 0x40, HalfCarry 0x20, Carry 0x10; no other bit
can ever be set). -/
structure Flags where
  zero : Bool
  subtraction : Bool
  half_carry : Bool
  carry : Bool
deriving Repr, DecidableEq

namespace Flags

/-- `BitFlags::bits`: the backing byte. -/
def bits (f : Flags) : Nat :=
  (if f.zero then 0x80 else 0) + (if f.subtraction then 0x40 else 0) +
  (if f.half_carry then 0x20 else 0) + (if f.carry then 0x10 else 0)

/-- `Flags::from_bits` (enumflags2): fails when any bit outside the
four flag bits is set — in particular when the low nibble is not 0. -/
def from_bits (b : Nat) : Option Flags :=
  if b &&& 0x0F = 0 ∧ b ≤ 0xFF then
    some ⟨b &&& 0x80 ≠ 0, b &&& 0x40 ≠ 0, b &&& 0x20 ≠ 0, b &&& 0x10 ≠ 0⟩
  else none

end Flags

/-- The eight base registers.  All byte-valued fields hold values
below 256. -/
structure Registers where
  a : Nat
  b : Nat
  c : Nat
  d : Nat
  e : Nat
  h : Nat
  l : Nat
  f : Flags
deriving Repr, DecidableEq

namespace Registers

/-- `Registers::bc` (big-endian pair: B is the high byte). -/
def bc (r : Registers) : Nat := r.c + 256 * r.b

/-- `Registers::set_bc`. -/
def set_bc (r : Registers) (value : Nat) : Registers :=
  { r with b := (value >>> 8) &&& 0xFF, c := value &&& 0xFF }

/-- `Registers::de`. -/
def de (r : Registers) : Nat := r.e + 256 * r.d

/-- `Registers::set_de`. -/
def set_de (r : Registers) (value : Nat) : Registers :=
  { r with d := (value >>> 8) &&& 0xFF, e := value &&& 0xFF }

/-- `Registers::hl`. -/
def hl (r : Registers) : Nat := r.l + 256 * r.h

/-- `Registers::set_hl`. -/
def set_hl (r : Registers) (value : Nat) : Registers :=
  { r with h := (value >>> 8) &&& 0xFF, l := value &&& 0xFF }

/-- `Registers::af`: F is the low byte. -/
def af (r : Registers) : Nat := r.f.bits + 256 * r.a

/-- `Registers::set_af`: the low byte goes through
`Flags::from_bits(f).unwrap()`, which panics when any of the low four
bits is set (modelled as `none`). -/
def set_af (r : Registers) (value : Nat) : Option Registers :=
  match Flags.from_bits (value &&& 0xFF) with
  | some f => some { r with a := (value >>> 8) &&& 0xFF, f := f }
  | none => none

end Registers

/-! ## CPU (src/src/cpu.rs)

The two `debug_*` fields of the source struct only feed trace logging
(they are `#[difference(skip)]`-ed and never influence execution), so
they are not modelled. -/

/-- CPU state. -/
structure Cpu where
  registers : Registers
  pc : Nat
  sp : Nat
  bus : MemoryBus
  interrupts_enabled : Bool

/-- `u8::overflowing_add` (arguments are bytes). -/
def u8_overflowing_add (a b : Nat) : Nat × Bool :=
  ((a + b) % 256, decide (a + b > 255))

/-- `u8::overflowing_sub` (arguments are bytes). -/
def u8_overflowing_sub (a b : Nat) : Nat × Bool :=
  ((a + 256 - b) % 256, decide (a < b))

/-- `u16` wrapping addition of a signed offset. -/
def u16_wrapping_add_signed (value : Nat) (offset : Int) : Nat :=
  (((value : Int) + offset) % 65536).toNat

namespace Cpu

/-- `Cpu::new`: with a boot ROM, everything starts zeroed at PC 0;
without one, the post-boot register file is loaded and PC = 0x100,
SP = 0xFFFE. -/
def new (boot_rom : Option (Nat → Nat)) (game_rom : List Nat) (test_mode : Bool) : Cpu :=
  match boot_rom with
  | some _ =>
      { registers := ⟨0, 0, 0, 0, 0, 0, 0, ⟨false, false, false, false⟩⟩,
        pc := 0, sp := 0,
        bus := MemoryBus.new boot_rom game_rom test_mode,
        interrupts_enabled := false }
  | none =>
      { registers := ⟨0x01, 0x00, 0x13, 0x00, 0xD8, 0x01, 0x4D,
          ⟨true, false, true, true⟩⟩,
        pc := 0x100, sp := 0xFFFE,
        bus := MemoryBus.new boot_rom game_rom test_mode,
        interrupts_enabled := false }

/-- `Cpu::match_register`: the (HL) operand reads through the bus. -/
def match_register (cpu : Cpu) (register : Register) : Option Nat :=
  match register with
  | .A => some cpu.registers.a
  | .B => some cpu.registers.b
  | .C => some cpu.registers.c
  | .D => some cpu.registers.d
  | .E => some cpu.registers.e
  | .L => some cpu.registers.l
  | .H => some cpu.registers.h
  | .HLIndirect => cpu.bus.read_byte cpu.registers.hl

/-- `Cpu::write_register`. -/
def write_register (cpu : Cpu) (register : Register) (value : Nat) : Option Cpu :=
  match register with
  | .A => some { cpu with registers := { cpu.registers with a := value } }
  | .B => some { cpu with registers := { cpu.registers with b := value } }
  | .C => some { cpu with registers := { cpu.registers with c := value } }
  | .D => some { cpu with registers := { cpu.registers with d := value } }
  | .E => some { cpu with registers := { cpu.registers with e := value } }
  | .L => some { cpu with registers := { cpu.registers with l := value } }
  | .H => some { cpu with registers := { cpu.registers with h := value } }
  | .HLIndirect =>
      (cpu.bus.write_byte cpu.registers.hl value).map fun bus => { cpu with bus := bus }

/-- `Cpu::match_register16`. -/
def match_register16 (cpu : Cpu) (register : Register16) : Nat :=
  match register with
  | .SP => cpu.sp
  | .BC => cpu.registers.bc
  | .DE => cpu.registers.de
  | .HL => cpu.registers.hl

/-- `Cpu::write_register16`. -/
def write_register16 (cpu : Cpu) (register : Register16) (value : Nat) : Cpu :=
  match register with
  | .SP => { cpu with sp := value }
  | .BC => { cpu with registers := cpu.registers.set_bc value }
  | .DE => { cpu with registers := cpu.registers.set_de value }
  | .HL => { cpu with registers := cpu.registers.set_hl value }

/-- `Cpu::match_jump_condition`. -/
def match_jump_condition (cpu : Cpu) (condition : JumpTest) : Bool :=
  match condition with
  | .NotZero => !cpu.registers.f.zero
  | .Zero => cpu.registers.f.zero
  | .NotCarry => !cpu.registers.f.carry
  | .Carry => cpu.registers.f.carry
  | .Always => true

/-- `Cpu::push`: high byte at SP−1, low byte at SP−2, SP −= 2
(`wrapping_sub`). -/
def push (cpu : Cpu) (value : Nat) : Option Cpu :=
  let sp1 := (cpu.sp + 65535) % 65536
  (cpu.bus.write_byte sp1 ((value &&& 0xFF00) >>> 8)).bind fun bus1 =>
    let sp2 := (sp1 + 65535) % 65536
    (bus1.write_byte sp2 (value &&& 0xFF)).map fun bus2 =>
      { cpu with sp := sp2, bus := bus2 }

/-- `Cpu::pop`: little-endian word at SP, SP += 2. -/
def pop (cpu : Cpu) : Option (Cpu × Nat) :=
  (cpu.bus.read_word cpu.sp).map fun word =>
    ({ cpu with sp := (cpu.sp + 2) % 65536 }, word)

/-- `Cpu::call`. -/
def call (cpu : Cpu) (should_jump : Bool) (address : Nat) : Option (Cpu × Nat × Nat) :=
  let next_pc := (cpu.pc + 3) % 65536
  if should_jump then
    (cpu.push next_pc).map fun cpu' => (cpu', address, 24)
  else
    some (cpu, next_pc, 12)

/-- `Cpu::retn`. -/
def retn (cpu : Cpu) (should_jump : Bool) : Option (Cpu × Nat × Nat) :=
  if should_jump then
    cpu.pop.map fun (cpu', word) => (cpu', word, 20)
  else
    some (cpu, (cpu.pc + 1) % 65536, 8)

/-- `Cpu::add`: the ADD/ADC core.  Returns the CPU with updated flags
and the wrapped sum (the caller stores it into A). -/
def add (cpu : Cpu) (value : Nat) (add_carry : Bool) : Cpu × Nat :=
  let carry := if add_carry && cpu.registers.f.carry then 1 else 0
  let r1 := u8_overflowing_add cpu.registers.a value
  let r2 := u8_overflowing_add r1.1 carry
  let f := { zero := r2.1 == 0,
             subtraction := false,
             carry := r1.2 || r2.2,
             half_carry :=
               decide ((cpu.registers.a &&& 0b1111) + (value &&& 0b1111) + carry > 0b1111) }
  ({ cpu with registers := { cpu.registers with f := f } }, r2.1)

/-- `Cpu::add_hl`. -/
def add_hl (cpu : Cpu) (value : Nat) : Cpu × Nat :=
  let hl := cpu.registers.hl
  let new_value := (hl + value) % 65536
  let f := { cpu.registers.f with
             carry := decide (hl + value > 65535),
             half_carry := decide ((hl &&& 0xFFF) + (value &&& 0xFFF) > 0xFFF),
             subtraction := false }
  ({ cpu with registers := { cpu.registers with f := f } }, new_value)

/-- `Cpu::add_signed`: `ADD SP, e8` / `LD HL, SP+e8` core; H and C come
from the low-nibble / low-byte unsigned lanes (`offset & 0xF` /
`offset & 0xFF` of the sign-extended offset are its low bits). -/
def add_signed (cpu : Cpu) (value : Nat) (offset : Int) : Cpu × Nat :=
  let new_value := u16_wrapping_add_signed value offset
  let f := { cpu.registers.f with
             half_carry := decide ((value &&& 0xF) + (offset % 16).toNat > 0xF),
             carry := decide ((value &&& 0xFF) + (offset % 256).toNat > 0xFF),
             subtraction := false,
             zero := false }
  ({ cpu with registers := { cpu.registers with f := f } }, new_value)

/-- `Cpu::and`. -/
def and (cpu : Cpu) (value : Nat) : Cpu × Nat :=
  let new_value := cpu.registers.a &&& value
  let f := { zero := new_value == 0, subtraction := false,
             carry := false, half_carry := true }
  ({ cpu with registers := { cpu.registers with f := f } }, new_value)

/-- `Cpu::or`. -/
def or (cpu : Cpu) (value : Nat) : Cpu × Nat :=
  let new_value := cpu.registers.a ||| value
  let f := { zero := new_value == 0, subtraction := false,
             carry := false, half_carry := false }
  ({ cpu with registers := { cpu.registers with f := f } }, new_value)

/-- `Cpu::xor`. -/
def xor (cpu : Cpu) (value : Nat) : Cpu × Nat :=
  let new_value := cpu.registers.a ^^^ value
  let f := { zero := new_value == 0, subtraction := false,
             carry := false, half_carry := false }
  ({ cpu with registers := { cpu.registers with f := f } }, new_value)

/-- `Cpu::sub`: the SUB/SBC core. -/
def sub (cpu : Cpu) (value : Nat) (sub_carry : Bool) : Cpu × Nat :=
  let carry := if sub_carry && cpu.registers.f.carry then 1 else 0
  let r1 := u8_overflowing_sub cpu.registers.a value
  let r2 := u8_overflowing_sub r1.1 carry
  let f := { zero := r2.1 == 0,
             subtraction := true,
             carry := r1.2 || r2.2,
             half_carry :=
               decide ((cpu.registers.a &&& 0b1111) < (value &&& 0b1111) + carry) }
  ({ cpu with registers := { cpu.registers with f := f } }, r2.1)

/-- `Cpu::cp`: flags only. -/
def cp (cpu : Cpu) (value : Nat) : Cpu :=
  let f := { zero := cpu.registers.a == value,
             subtraction := true,
             half_carry := decide ((cpu.registers.a &&& 0b1111) < (value &&& 0b1111)),
             carry := decide (cpu.registers.a < value) }
  { cpu with registers := { cpu.registers with f := f } }

/-- `Cpu::bit`. -/
def bit (cpu : Cpu) (mask value : Nat) : Cpu :=
  let f := { cpu.registers.f with
             zero := value &&& mask == 0,
             subtraction := false,
             half_carry := true }
  { cpu with registers := { cpu.registers with f := f } }

/-- `Cpu::relative_jump`. -/
def relative_jump (cpu : Cpu) (should_jump : Bool) (offset : Int) : Nat × Nat :=
  let pc := (cpu.pc + 2) % 65536
  if should_jump then (u16_wrapping_add_signed pc offset, 12) else (pc, 8)

/-- `Cpu::jump`. -/
def jump (cpu : Cpu) (should_jump : Bool) (address : Nat) : Nat × Nat :=
  let pc := (cpu.pc + 3) % 65536
  if should_jump then (address, 16) else (pc, 12)

/-- `Cpu::inc`. -/
def inc (cpu : Cpu) (value : Nat) : Cpu × Nat :=
  let new_value := (value + 1) % 256
  let f := { cpu.registers.f with
             zero := new_value == 0,
             subtraction := false,
             half_carry := decide ((value &&& 0b1111) + 1 > 0b1111) }
  ({ cpu with registers := { cpu.registers with f := f } }, new_value)

/-- `Cpu::dec`: H is set when the low nibble is zero
(`value.trailing_zeros() >= 4`). -/
def dec (cpu : Cpu) (value : Nat) : Cpu × Nat :=
  let new_value := (value + 255) % 256
  let f := { cpu.registers.f with
             zero := new_value == 0,
             subtraction := true,
             half_carry := value &&& 0b1111 == 0 }
  ({ cpu with registers := { cpu.registers with f := f } }, new_value)

/-- `Cpu::rotate_left_through_carry` (RL / RLA). -/
def rotate_left_through_carry (cpu : Cpu) (value : Nat) (set_zero : Bool) : Cpu × Nat :=
  let carry := if cpu.registers.f.carry then 1 else 0
  let new_value := ((value <<< 1) % 256) ||| carry
  let f := { cpu.registers.f with
             zero := new_value == 0 && set_zero,
             subtraction := false,
             half_carry := false,
             carry := value >>> 7 == 1 }
  ({ cpu with registers := { cpu.registers with f := f } }, new_value)

/-- `Cpu::rotate_right_through_carry` (RR / RRA). -/
def rotate_right_through_carry (cpu : Cpu) (value : Nat) (set_zero : Bool) : Cpu × Nat :=
  let carry := if cpu.registers.f.carry then 1 else 0
  let new_value := (value >>> 1) ||| (carry <<< 7)
  let f := { cpu.registers.f with
             zero := new_value == 0 && set_zero,
             subtraction := false,
             half_carry := false,
             carry := value &&& 1 == 1 }
  ({ cpu with registers := { cpu.registers with f := f } }, new_value)

/-- `Cpu::shift_right` (SRL / SRA). -/
def shift_right (cpu : Cpu) (value : Nat) (preserve_msb : Bool) : Cpu × Nat :=
  let mask := if preserve_msb then value &&& 0b10000000 else 0
  let new_value := (value >>> 1) ||| mask
  let f := { cpu.registers.f with
             zero := new_value == 0,
             carry := value &&& 1 == 1,
             subtraction := false,
             half_carry := false }
  ({ cpu with registers := { cpu.registers with f := f } }, new_value)

/-- `Cpu::daa`. -/
def daa (cpu : Cpu) : Cpu × Nat :=
  let value := cpu.registers.a
  let half_carry := cpu.registers.f.half_carry
  let carry := cpu.registers.f.carry
  let subtraction := cpu.registers.f.subtraction
  let adjust := if half_carry || (!subtraction && decide (value &&& 0xF > 0x9)) then 0x6 else 0
  let adjust :=
    if carry || (!subtraction && decide (value > 0x99)) then adjust + 0x60 else adjust
  let new_value :=
    if subtraction then (value + 256 - adjust) % 256 else (value + adjust) % 256
  let f := { cpu.registers.f with
             zero := new_value == 0,
             carry := carry || (!subtraction && decide (value > 0x99)),
             half_carry := false }
  ({ cpu with registers := { cpu.registers with f := f } }, new_value)

/-- `Cpu::execute`: run one decoded instruction, returning the updated
CPU, the next PC and the T-cycle cost.  `none` models the panics the
source can hit while executing (bus `todo!` arms, `set_af`'s unwrap,
and the `todo!("unimplemented instruction")` catch-alls for `Halt`,
`Reti`, `Reset`, `Rlca`, `Rrca`, `Cpl`, `Scf`, `Ccf`, `Res`, `Set` and
the RLC/RRC/SLA/SWAP rotations). -/
def execute (cpu : Cpu) (instruction : Instruction) : Option (Cpu × Nat × Nat) :=
  match instruction with
  | .Ld (.Indirect indirect_type direction) =>
    let address :=
      match indirect_type with
      | .BC => cpu.registers.bc
      | .DE => cpu.registers.de
      | .HLDec | .HLInc => cpu.registers.hl
      | .Immediate a => a
    let acted : Option Cpu :=
      match direction with
      | .IntoA =>
          (cpu.bus.read_byte address).map fun value =>
            { cpu with registers := { cpu.registers with a := value } }
      | .FromA =>
          (cpu.bus.write_byte address cpu.registers.a).map fun bus =>
            { cpu with bus := bus }
    acted.map fun cpu' =>
      let cpu :=
        match indirect_type with
        | .HLDec =>
            { cpu' with registers := cpu'.registers.set_hl ((address + 65535) % 65536) }
        | .HLInc =>
            { cpu' with registers := cpu'.registers.set_hl ((address + 1) % 65536) }
        | _ => cpu'
      match indirect_type with
      | .Immediate _ => (cpu, (cpu.pc + 3) % 65536, 16)
      | _ => (cpu, (cpu.pc + 1) % 65536, 8)
  | .Ld (.Byte register source) =>
    let value : Option Nat :=
      match source with
      | .Immediate x => some x
      | .Register reg => cpu.match_register reg
    value.bind fun value =>
      (cpu.write_register register value).map fun cpu =>
        match source with
        | .Immediate _ => (cpu, (cpu.pc + 2) % 65536, 8)
        | .Register _ => (cpu, (cpu.pc + 1) % 65536, 4)
  | .Ld (.Word register source) =>
    let source_value :=
      match source with
      | .Immediate x => x
      | .HL => cpu.registers.hl
    let cpu := cpu.write_register16 register source_value
    some (match source with
      | .Immediate _ => (cpu, (cpu.pc + 3) % 65536, 12)
      | .HL => (cpu, (cpu.pc + 1) % 65536, 8))
  | .Ld (.LastByteAddress source direction) =>
    let offset :=
      match source with
      | .C => cpu.registers.c
      | .Immediate x => x
    let address := 0xFF00 + offset
    let acted : Option Cpu :=
      match direction with
      | .FromA =>
          (cpu.bus.write_byte address cpu.registers.a).map fun bus =>
            { cpu with bus := bus }
      | .IntoA =>
          (cpu.bus.read_byte address).map fun value =>
            { cpu with registers := { cpu.registers with a := value } }
    acted.map fun cpu =>
      match source with
      | .Immediate _ => (cpu, (cpu.pc + 2) % 65536, 12)
      | .C => (cpu, (cpu.pc + 1) % 65536, 8)
  | .Ld (.FromSp target offset) =>
    (match target with
      | .Immediate address =>
        (cpu.bus.write_word address cpu.sp).map fun bus =>
          ({ cpu with bus := bus }, (cpu.pc + 3) % 65536, 20)
      | .HL =>
        let r := cpu.add_signed cpu.sp offset
        let cpu := { r.1 with registers := r.1.registers.set_hl r.2 }
        some (cpu, (cpu.pc + 2) % 65536, 12))
  | .AddHl register =>
    let value := cpu.match_register16 register
    let r := cpu.add_hl value
    let cpu := { r.1 with registers := r.1.registers.set_hl r.2 }
    some (cpu, (cpu.pc + 1) % 65536, 8)
  | .AddSp offset =>
    let r := cpu.add_signed cpu.sp offset
    let cpu := { r.1 with sp := r.2 }
    some (cpu, (cpu.pc + 2) % 65536, 16)
  | .Arithmetic alu source =>
    let value : Option Nat :=
      match source with
      | .Register register => cpu.match_register register
      | .Immediate value => some value
    value.bind fun value =>
      let acted : Option Cpu :=
        match alu with
        | .Add | .Adc =>
          let r := cpu.add value (alu == .Adc)
          some { r.1 with registers := { r.1.registers with a := r.2 } }
        | .Sub | .Sbc =>
          let r := cpu.sub value (alu == .Sbc)
          some { r.1 with registers := { r.1.registers with a := r.2 } }
        | .And =>
          let r := cpu.and value
          some { r.1 with registers := { r.1.registers with a := r.2 } }
        | .Or =>
          let r := cpu.or value
          some { r.1 with registers := { r.1.registers with a := r.2 } }
        | .Xor =>
          let r := cpu.xor value
          some { r.1 with registers := { r.1.registers with a := r.2 } }
        | .Cp => some (cpu.cp value)
      acted.map fun cpu =>
        match source with
        | .Immediate _ => (cpu, (cpu.pc + 2) % 65536, 8)
        | .Register .HLIndirect => (cpu, (cpu.pc + 1) % 65536, 8)
        | .Register _ => (cpu, (cpu.pc + 1) % 65536, 4)
  | .Bit b source =>
    (cpu.match_register source).map fun value =>
      let mask := 1 <<< b
      let cpu := cpu.bit mask value
      match source with
      | .HLIndirect => (cpu, (cpu.pc + 2) % 65536, 12)
      | _ => (cpu, (cpu.pc + 2) % 65536, 8)
  | .JR condition relative =>
    let should_jump := cpu.match_jump_condition condition
    let r := cpu.relative_jump should_jump relative
    some (cpu, r.1, r.2)
  | .JP condition target =>
    let should_jump := cpu.match_jump_condition condition
    (match target with
      | .HL => some (cpu, cpu.registers.hl, 4)
      | .Immediate address =>
        let r := cpu.jump should_jump address
        some (cpu, r.1, r.2))
  | .Inc register =>
    (cpu.match_register register).bind fun value =>
      let r := cpu.inc value
      (r.1.write_register register r.2).map fun cpu =>
        match register with
        | .HLIndirect => (cpu, (cpu.pc + 1) % 65536, 12)
        | _ => (cpu, (cpu.pc + 1) % 65536, 4)
  | .Inc16 register =>
    let value := cpu.match_register16 register
    let cpu := cpu.write_register16 register ((value + 1) % 65536)
    some (cpu, (cpu.pc + 1) % 65536, 8)
  | .Dec register =>
    (cpu.match_register register).bind fun value =>
      let r := cpu.dec value
      (r.1.write_register register r.2).map fun cpu =>
        match register with
        | .HLIndirect => (cpu, (cpu.pc + 1) % 65536, 12)
        | _ => (cpu, (cpu.pc + 1) % 65536, 4)
  | .Dec16 register =>
    let value := cpu.match_register16 register
    let cpu := cpu.write_register16 register ((value + 65535) % 65536)
    some (cpu, (cpu.pc + 1) % 65536, 8)
  | .Call condition address =>
    let should_jump := cpu.match_jump_condition condition
    cpu.call should_jump address
  | .Ret condition =>
    let should_return := cpu.match_jump_condition condition
    (cpu.bus.read_word cpu.sp).bind fun _address =>
      (cpu.retn should_return).map fun r =>
        match condition with
        | .Always => (r.1, r.2.1, 16)
        | _ => r
  | .Push register =>
    let value :=
      match register with
      | .BC => cpu.registers.bc
      | .DE => cpu.registers.de
      | .HL => cpu.registers.hl
      | .AF => cpu.registers.af
    (cpu.push value).map fun cpu => (cpu, (cpu.pc + 1) % 65536, 16)
  | .Pop register =>
    cpu.pop.bind fun (cpu, value) =>
      (match register with
        | .BC => some { cpu with registers := cpu.registers.set_bc value }
        | .DE => some { cpu with registers := cpu.registers.set_de value }
        | .HL => some { cpu with registers := cpu.registers.set_hl value }
        | .AF =>
          (cpu.registers.set_af value).map fun registers =>
            { cpu with registers := registers }).map
        fun cpu => (cpu, (cpu.pc + 1) % 65536, 12)
  | .Rot rot register =>
    (match rot with
      | .Rl =>
        (cpu.match_register register).bind fun value =>
          let r := cpu.rotate_left_through_carry value true
          (r.1.write_register register r.2).map fun cpu =>
            match register with
            | .HLIndirect => (cpu, (cpu.pc + 2) % 65536, 16)
            | _ => (cpu, (cpu.pc + 2) % 65536, 8)
      | .Rr =>
        (cpu.match_register register).bind fun value =>
          let r := cpu.rotate_right_through_carry value true
          (r.1.write_register register r.2).map fun cpu =>
            match register with
            | .HLIndirect => (cpu, (cpu.pc + 2) % 65536, 16)
            | _ => (cpu, (cpu.pc + 2) % 65536, 8)
      | .Srl | .Sra =>
        (cpu.match_register register).bind fun value =>
          let r := cpu.shift_right value (rot == .Sra)
          (r.1.write_register register r.2).map fun cpu =>
            match register with
            | .HLIndirect => (cpu, (cpu.pc + 2) % 65536, 16)
            | _ => (cpu, (cpu.pc + 2) % 65536, 8)
      | _ => none)
  | .Rla =>
    let r := cpu.rotate_left_through_carry cpu.registers.a false
    some ({ r.1 with registers := { r.1.registers with a := r.2 } },
      (cpu.pc + 1) % 65536, 4)
  | .Rra =>
    let r := cpu.rotate_right_through_carry cpu.registers.a false
    some ({ r.1 with registers := { r.1.registers with a := r.2 } },
      (cpu.pc + 1) % 65536, 4)
  | .Nop => some (cpu, (cpu.pc + 1) % 65536, 4)
  | .Di => some ({ cpu with interrupts_enabled := false }, (cpu.pc + 1) % 65536, 4)
  | .Ei => some ({ cpu with interrupts_enabled := true }, (cpu.pc + 1) % 65536, 4)
  | .Daa =>
    let r := cpu.daa
    some ({ r.1 with registers := { r.1.registers with a := r.2 } },
      (cpu.pc + 1) % 65536, 4)
  | _ => none

/-- `Cpu::step`: fetch four bytes at PC, decode, execute, feed the
cycle count to the GPU and commit the next PC.  The source unwraps the
decoder result, so a decode error or panic crashes the program
(`none`); no interrupt check of any kind is performed. -/
def step (cpu : Cpu) : Option (Cpu × Nat) :=
  (cpu.bus.slice_from cpu.pc).bind fun slice =>
    match parse_instruction slice with
    | .ok _after instruction =>
      (cpu.execute instruction).map fun (cpu, next_pc, cycles) =>
        ({ cpu with bus := { cpu.bus with gpu := cpu.bus.gpu.step cycles },
                    pc := next_pc }, cycles)
    | _ => none

end Cpu

/-! ## Concrete machine states used to evaluate the code on failing inputs -/

/-- A CPU with IME set and a pending, enabled VBlank interrupt
(IE = IF = 0x01), about to fetch a NOP from WRAM at 0xC000. -/
def interruptPendingCpu : Cpu :=
  let base := Cpu.new none [] false
  { base with
    pc := 0xC000, interrupts_enabled := true,
    bus := { base.bus with
             interrupt_flag := 1, interrupt_enabled := 1 } }

/-- A CPU about to execute POP AF (opcode 0xF1 at 0xC000) with the
word 0x0001 on the stack at SP = 0xD000. -/
def popAfCpu : Cpu :=
  let base := Cpu.new none [] false
  { base with
    pc := 0xC000, sp := 0xD000,
    bus := { base.bus with
             wram := fun i => if i = 0 then 0xF1 else if i = 0x1000 then 0x01 else 0 } }

/-- A CPU whose next opcode byte is the undefined DMG opcode 0xD3. -/
def invalidOpcodeCpu : Cpu :=
  let base := Cpu.new none [] false
  { base with
    pc := 0xC000,
    bus := { base.bus with
             wram := fun i => if i = 0 then 0xD3 else 0 } }

/-- A CPU about to execute a NOP while the (enabled) GPU sits at
line 143 with 202 accumulated HBlank cycles: the 4-cycle step crosses
the 204-cycle HBlank boundary into VBlank. -/
def hblankEndCpu : Cpu :=
  let base := Cpu.new none [] false
  { base with
    pc := 0xC000,
    bus := { base.bus with
             gpu := { Gpu.default with
                      lcd_control := 0x80, mode := Mode.HBlank,
                      line := 143, cycles := 202 } } }

/-- The same GPU state on a mid-frame line (100). -/
def hblankMidGpu : Gpu :=
  { Gpu.default with
    lcd_control := 0x80, mode := Mode.HBlank, line := 100, cycles := 202 }

/-! ## Theorems -/

theorem Timer.hitsOverflow_iff (modulo : Nat) :
    ∀ k c, hitsOverflow modulo c k = true ↔
      ∃ i < k, (tickTima modulo)^[i] c + 1 > 255 := by
  intro k
  induction k with
  | zero => simp [hitsOverflow]
  | succ k ih =>
    intro c
    simp only [hitsOverflow, Bool.or_eq_true, decide_eq_true_eq, ih]
    constructor
    · rintro (hc | ⟨i, hi, hv⟩)
      · exact ⟨0, by omega, by simpa using hc⟩
      · exact ⟨i + 1, by omega, by simpa [Function.iterate_succ_apply] using hv⟩
    · rintro ⟨i, hi, hv⟩
      match i with
      | 0 => exact Or.inl (by simpa using hv)
      | j + 1 =>
        exact Or.inr ⟨j, by omega, by simpa [Function.iterate_succ_apply] using hv⟩

/-- Closed form of the `while` loop of `Timer::step`: it performs
`cc / target` TIMA increments, leaves `cc % target` in the accumulator,
and reports whether any increment overflowed. -/
theorem Timer.timaLoop_spec (target : Nat) (hT : 0 < target) :
    ∀ cc c m (ov : Bool),
      timaLoop cc target c m ov =
        (cc % target, (tickTima m)^[cc / target] c,
         ov || hitsOverflow m c (cc / target)) := by
  intro cc
  induction cc using Nat.strong_induction_on with
  | _ cc ih =>
    intro c m ov
    rw [timaLoop]
    by_cases h : target ≤ cc
    · rw [dif_pos ⟨hT, h⟩, ih (cc - target) (by omega)]
      have hdiv : cc / target = (cc - target) / target + 1 :=
        Nat.div_eq_sub_div hT h
      have hmod : cc % target = (cc - target) % target :=
        Nat.mod_eq_sub_mod h
      rw [hdiv, hmod, Function.iterate_succ_apply, hitsOverflow, Bool.or_assoc]
    · rw [dif_neg (by omega)]
      have hlt : cc < target := by omega
      rw [Nat.div_eq_of_lt hlt, Nat.mod_eq_of_lt hlt]
      simp [hitsOverflow]

/-- `tickTima` keeps the counter below 256 when TMA is a byte. -/
theorem Timer.iterate_tickTima_lt (m c : Nat) (hm : m < 256) (hc : c < 256) :
    ∀ i, (tickTima m)^[i] c < 256 := by
  intro i
  induction i generalizing c with
  | zero => simpa
  | succ i ih =>
    rw [Function.iterate_succ_apply]
    apply ih
    unfold tickTima
    split <;> omega

/-- C3.  For every timer state with TAC.Enable set and every cycle
delta, `Timer::step` increments TIMA once per 1024/16/64/256
accumulated T-cycles for TAC[1:0] = 00/01/10/11 (the loop performing
`(counter_counter + cycles) / target` increments in a single call, so a
step that crosses several period boundaries increments several times),
and each TIMA overflow reloads TIMA from TMA and makes `step` report a
Timer interrupt request. -/
theorem timer_step_tima_spec (t : Timer) (cycles : Nat)
    (hen : t.is_enabled = true) (hc : t.counter < 256) (hm : t.modulo < 256)
    (_hcc : t.counter_counter + cycles ≤ 0xFFFF) :
    ((t.control % 4 = 0 → t.cycle_speed * 4 = 1024) ∧
     (t.control % 4 = 1 → t.cycle_speed * 4 = 16) ∧
     (t.control % 4 = 2 → t.cycle_speed * 4 = 64) ∧
     (t.control % 4 = 3 → t.cycle_speed * 4 = 256)) ∧
    (t.step cycles).1.counter =
      (Timer.tickTima t.modulo)^[(t.counter_counter + cycles) / (t.cycle_speed * 4)]
        t.counter ∧
    (t.step cycles).1.counter_counter =
      (t.counter_counter + cycles) % (t.cycle_speed * 4) ∧
    ((t.step cycles).2 = true ↔
      ∃ i < (t.counter_counter + cycles) / (t.cycle_speed * 4),
        (Timer.tickTima t.modulo)^[i] t.counter = 255) ∧
    Timer.tickTima t.modulo 255 = t.modulo := by
  have hand : t.control &&& 0b11 = t.control % 4 := by
    have h := Nat.and_pow_two_sub_one_eq_mod t.control 2
    norm_num at h
    exact h
  have hspeed : 0 < t.cycle_speed := by
    unfold Timer.cycle_speed
    split <;> norm_num
  have hT : 0 < t.cycle_speed * 4 := by omega
  have hstep :
      t.step cycles =
        ({ t with
            divider := (t.increment_div cycles).1,
            divider_counter := (t.increment_div cycles).2,
            counter_counter := (t.counter_counter + cycles) % (t.cycle_speed * 4),
            counter :=
              (Timer.tickTima t.modulo)^[(t.counter_counter + cycles) / (t.cycle_speed * 4)]
                t.counter },
          Timer.hitsOverflow t.modulo t.counter
            ((t.counter_counter + cycles) / (t.cycle_speed * 4))) := by
    have hen' :
        Timer.is_enabled
          { t with divider := (t.increment_div cycles).1,
                   divider_counter := (t.increment_div cycles).2 } = true := hen
    have hcs :
        Timer.cycle_speed
          { t with divider := (t.increment_div cycles).1,
                   divider_counter := (t.increment_div cycles).2 } = t.cycle_speed := rfl
    simp only [Timer.step, hen', if_true, hcs, Timer.timaLoop_spec _ hT, Bool.false_or]
  refine ⟨?_, ?_, ?_, ?_, ?_⟩
  · unfold Timer.cycle_speed
    rw [hand]
    refine ⟨fun h => ?_, fun h => ?_, fun h => ?_, fun h => ?_⟩ <;> rw [h] <;> decide
  · rw [hstep]
  · rw [hstep]
  · rw [hstep]
    simp only [Timer.hitsOverflow_iff]
    constructor
    · rintro ⟨i, hi, hv⟩
      refine ⟨i, hi, ?_⟩
      have := Timer.iterate_tickTima_lt t.modulo t.counter hm hc i
      omega
    · rintro ⟨i, hi, hv⟩
      exact ⟨i, hi, by omega⟩
  · unfold Timer.tickTima
    norm_num

/-- C3 witness: TAC = 0b101 (enabled, clock 01 → 16 T-cycles),
TIMA = 255, TMA = 7; a 20-cycle step crosses one period boundary,
overflows, reloads 7 and requests the interrupt. -/
theorem timer_step_tima_spec_witness :
    (((⟨0b101, 0, 255, 7, 0, 0⟩ : Timer).control % 4 = 0 →
        (⟨0b101, 0, 255, 7, 0, 0⟩ : Timer).cycle_speed * 4 = 1024) ∧
     ((⟨0b101, 0, 255, 7, 0, 0⟩ : Timer).control % 4 = 1 →
        (⟨0b101, 0, 255, 7, 0, 0⟩ : Timer).cycle_speed * 4 = 16) ∧
     ((⟨0b101, 0, 255, 7, 0, 0⟩ : Timer).control % 4 = 2 →
        (⟨0b101, 0, 255, 7, 0, 0⟩ : Timer).cycle_speed * 4 = 64) ∧
     ((⟨0b101, 0, 255, 7, 0, 0⟩ : Timer).control % 4 = 3 →
        (⟨0b101, 0, 255, 7, 0, 0⟩ : Timer).cycle_speed * 4 = 256)) ∧
    ((⟨0b101, 0, 255, 7, 0, 0⟩ : Timer).step 20).1.counter =
      (Timer.tickTima 7)^[(0 + 20) / ((⟨0b101, 0, 255, 7, 0, 0⟩ : Timer).cycle_speed * 4)]
        255 ∧
    ((⟨0b101, 0, 255, 7, 0, 0⟩ : Timer).step 20).1.counter_counter =
      (0 + 20) % ((⟨0b101, 0, 255, 7, 0, 0⟩ : Timer).cycle_speed * 4) ∧
    (((⟨0b101, 0, 255, 7, 0, 0⟩ : Timer).step 20).2 = true ↔
      ∃ i < (0 + 20) / ((⟨0b101, 0, 255, 7, 0, 0⟩ : Timer).cycle_speed * 4),
        (Timer.tickTima 7)^[i] 255 = 255) ∧
    Timer.tickTima 7 255 = 7 :=
  timer_step_tima_spec ⟨0b101, 0, 255, 7, 0, 0⟩ 20 (by decide) (by decide) (by decide)
    (by decide)

/-- C4.  The claim says a `Timer::step` that does not complete a
256-cycle DIV period leaves DIV intact; the source instead zeroes DIV
(`increment_div`'s no-overflow branch returns `0`), contradicting its
own doc comment.  Failing input: DIV = 5, accumulator 0, delta 4. -/
theorem timer_div_reset_bug :
    ((⟨0, 5, 0, 0, 0, 0⟩ : Timer).divider = 5) ∧
    ((⟨0, 5, 0, 0, 0, 0⟩ : Timer).step 4).1.divider = 0 ∧
    ((⟨0, 5, 0, 0, 0, 0⟩ : Timer).step 4).1.divider ≠ 5 := by
  refine ⟨rfl, ?_, ?_⟩ <;> decide

/-- C6.  The claim says writes to 0x0000–0x7FFF leave the ROM banks
unchanged (log only); the source's two ROM arms in
`MemoryBus::write_byte` log the warning and then store the value.
Failing input: a fresh zeroed bus, `write_byte(0x1234, 0xAB)` makes a
subsequent `read_byte(0x1234)` return 0xAB instead of the original
0x00 (likewise 0x4567 in bank N). -/
theorem rom_write_mutates_rom_bug :
    ((MemoryBus.new none [] false).read_byte 0x1234 = some 0x00) ∧
    (((MemoryBus.new none [] false).write_byte 0x1234 0xAB).bind
        (fun b => b.read_byte 0x1234) = some 0xAB) ∧
    ((MemoryBus.new none [] false).read_byte 0x4567 = some 0x00) ∧
    (((MemoryBus.new none [] false).write_byte 0x4567 0xAB).bind
        (fun b => b.read_byte 0x4567) = some 0xAB) := by
  refine ⟨?_, ?_, ?_, ?_⟩ <;> decide

/-- C9 counterexample.  As stated the claim is false on the code: on a
fresh bus (all WRAM zero), writing 0xAB at 0xDFFF and reading 0xFDFF
returns 0x00, not 0xAB — the echo window mirrors address − 0x2000, and
0xFDFF − 0x2000 = 0xDDFF, not 0xDFFF. -/
theorem echo_claim_counterexample :
    ¬ (((MemoryBus.new none [] false).write_byte 0xDFFF 0xAB).bind
        (fun b => b.read_byte 0xFDFF) = some 0xAB) := by
  intro h
  have heq : ((MemoryBus.new none [] false).write_byte 0xDFFF 0xAB).bind
      (fun b => b.read_byte 0xFDFF) = some 0x00 := by decide
  rw [heq] at h
  simp at h

/-- Reading a WRAM address resolves to the `wram` array. -/
theorem MemoryBus.read_byte_wram (b : MemoryBus) (a : Nat)
    (hlo : 0xC000 ≤ a) (hhi : a ≤ 0xDFFF) :
    b.read_byte a = some (b.wram (a - 0xC000)) := by
  unfold MemoryBus.read_byte
  rw [if_neg (show ¬ a ≤ 0xFF by omega),
      if_neg (show ¬ (0x100 ≤ a ∧ a ≤ 0x3FFF) by omega),
      if_neg (show ¬ (0x4000 ≤ a ∧ a ≤ 0x7FFF) by omega),
      if_neg (show ¬ (0xA000 ≤ a ∧ a ≤ 0xBFFF) by omega),
      if_pos (show 0xC000 ≤ a ∧ a ≤ 0xDFFF from ⟨hlo, hhi⟩)]

/-- Reading an echo-RAM address resolves to `wram` at address − 0xE000. -/
theorem MemoryBus.read_byte_echo (b : MemoryBus) (a : Nat)
    (hlo : 0xE000 ≤ a) (hhi : a ≤ 0xFDFF) :
    b.read_byte a = some (b.wram (a - 0xE000)) := by
  unfold MemoryBus.read_byte
  rw [if_neg (show ¬ a ≤ 0xFF by omega),
      if_neg (show ¬ (0x100 ≤ a ∧ a ≤ 0x3FFF) by omega),
      if_neg (show ¬ (0x4000 ≤ a ∧ a ≤ 0x7FFF) by omega),
      if_neg (show ¬ (0xA000 ≤ a ∧ a ≤ 0xBFFF) by omega),
      if_neg (show ¬ (0xC000 ≤ a ∧ a ≤ 0xDFFF) by omega),
      if_pos (show 0xE000 ≤ a ∧ a ≤ 0xFDFF from ⟨hlo, hhi⟩)]

/-- Writing a WRAM address stores into the `wram` array. -/
theorem MemoryBus.write_byte_wram (b : MemoryBus) (a v : Nat)
    (hlo : 0xC000 ≤ a) (hhi : a ≤ 0xDFFF) :
    b.write_byte a v = some { b with wram := upd b.wram (a - 0xC000) v } := by
  unfold MemoryBus.write_byte
  rw [if_neg (show ¬ a ≤ 0x3FFF by omega),
      if_neg (show ¬ (0x4000 ≤ a ∧ a ≤ 0x7FFF) by omega),
      if_neg (show ¬ (0xA000 ≤ a ∧ a ≤ 0xBFFF) by omega),
      if_pos (show 0xC000 ≤ a ∧ a ≤ 0xDFFF from ⟨hlo, hhi⟩)]

/-- Writing an echo-RAM address stores into `wram` at address − 0xE000. -/
theorem MemoryBus.write_byte_echo (b : MemoryBus) (a v : Nat)
    (hlo : 0xE000 ≤ a) (hhi : a ≤ 0xFDFF) :
    b.write_byte a v = some { b with wram := upd b.wram (a - 0xE000) v } := by
  unfold MemoryBus.write_byte
  rw [if_neg (show ¬ a ≤ 0x3FFF by omega),
      if_neg (show ¬ (0x4000 ≤ a ∧ a ≤ 0x7FFF) by omega),
      if_neg (show ¬ (0xA000 ≤ a ∧ a ≤ 0xBFFF) by omega),
      if_neg (show ¬ (0xC000 ≤ a ∧ a ≤ 0xDFFF) by omega),
      if_pos (show 0xE000 ≤ a ∧ a ≤ 0xFDFF from ⟨hlo, hhi⟩)]

/-- C9 (amended).  The echo window 0xE000–0xFDFF mirrors WRAM at
address − 0x2000 for both reads and writes; in particular a write at
0xDDFF is observable at 0xFDFF. -/
theorem echo_ram_mirror (b : MemoryBus) (a v : Nat)
    (h1 : 0xE000 ≤ a) (h2 : a ≤ 0xFDFF) :
    b.read_byte a = b.read_byte (a - 0x2000) ∧
    (∀ b', b.write_byte (a - 0x2000) v = some b' → b'.read_byte a = some v) ∧
    (∀ b', b.write_byte a v = some b' → b'.read_byte (a - 0x2000) = some v) := by
  have hidx : a - 0xE000 = a - 0x2000 - 0xC000 := by omega
  refine ⟨?_, ?_, ?_⟩
  · rw [MemoryBus.read_byte_echo b a h1 h2,
        MemoryBus.read_byte_wram b (a - 0x2000) (by omega) (by omega), hidx]
  · intro b' h
    rw [MemoryBus.write_byte_wram b (a - 0x2000) v (by omega) (by omega)] at h
    cases h
    rw [MemoryBus.read_byte_echo _ a h1 h2, hidx]
    simp [upd]
  · intro b' h
    rw [MemoryBus.write_byte_echo b a v h1 h2] at h
    cases h
    rw [MemoryBus.read_byte_wram _ (a - 0x2000) (by omega) (by omega), ← hidx]
    simp [upd]

/-- C9 witness at the amended claim's concrete addresses. -/
theorem echo_ram_mirror_witness :
    ((MemoryBus.new none [] false).read_byte 0xFDFF =
      (MemoryBus.new none [] false).read_byte (0xFDFF - 0x2000) ∧
    (∀ b', (MemoryBus.new none [] false).write_byte (0xFDFF - 0x2000) 0xAB = some b' →
      b'.read_byte 0xFDFF = some 0xAB) ∧
    (∀ b', (MemoryBus.new none [] false).write_byte 0xFDFF 0xAB = some b' →
      b'.read_byte (0xFDFF - 0x2000) = some 0xAB)) :=
  echo_ram_mirror (MemoryBus.new none [] false) 0xFDFF 0xAB (by decide) (by decide)

/-- C10.  `MemoryBus::read_byte` takes `&self`: a call mutates nothing
and two consecutive reads of the same address return the same byte —
for every bus state and address, threading the state through two calls
yields twice the byte of a single `read_byte` and ends in the original
bus. -/
theorem read_byte_pure (b : MemoryBus) (address : Nat) :
    b.twoReads address = (b.read_byte address).map (fun v => (v, v, b)) := by
  unfold MemoryBus.twoReads MemoryBus.readByteCall
  cases h : b.read_byte address <;> simp [h]

/-- C1.  The claim says that with IME set and IE ∧ IF ≠ 0 the very
next `Cpu::step` services the interrupt (clear IME, clear the IF bit,
push PC, jump to 0x40, 20 cycles).  The source's `step` performs no
interrupt check at all — `pop_interrupt_handler_address` is dead code —
so on the failing input it simply executes the NOP at PC: 4 cycles,
PC = 0xC001, IME still set, IF still 1. -/
theorem step_ignores_pending_interrupt_bug :
    interruptPendingCpu.interrupts_enabled = true ∧
    interruptPendingCpu.bus.is_interrupt_pending = true ∧
    (interruptPendingCpu.step.map fun r => r.2) = some 4 ∧
    (interruptPendingCpu.step.map fun r => r.1.pc) = some 0xC001 ∧
    (interruptPendingCpu.step.map fun r => r.1.interrupts_enabled) = some true ∧
    (interruptPendingCpu.step.map fun r => r.1.bus.interrupt_flag) = some 1 := by
  refine ⟨rfl, by decide, ?_, ?_, ?_, ?_⟩ <;> decide

/-- C2.  ADD A,n / ADC A,n: Z iff the wrapped result is zero, N
cleared, H iff the low nibbles plus carry-in exceed 0xF, C iff the sum
exceeds 0xFF, carry-in being the pre-op C flag for ADC and 0 for ADD;
the executed instruction stores the wrapped sum into A (shown for the
immediate operand, which carries an arbitrary byte). -/
theorem add_adc_flag_spec (cpu : Cpu) (value : Nat) (adc : Bool)
    (ha : cpu.registers.a < 256) (hv : value < 256) :
    (cpu.add value adc).2 =
      (cpu.registers.a + value +
        (if adc && cpu.registers.f.carry then 1 else 0)) % 256 ∧
    ((cpu.add value adc).1.registers.f.zero = true ↔
      (cpu.registers.a + value +
        (if adc && cpu.registers.f.carry then 1 else 0)) % 256 = 0) ∧
    (cpu.add value adc).1.registers.f.subtraction = false ∧
    ((cpu.add value adc).1.registers.f.half_carry = true ↔
      cpu.registers.a % 16 + value % 16 +
        (if adc && cpu.registers.f.carry then 1 else 0) > 15) ∧
    ((cpu.add value adc).1.registers.f.carry = true ↔
      cpu.registers.a + value +
        (if adc && cpu.registers.f.carry then 1 else 0) > 255) ∧
    cpu.execute (.Arithmetic (if adc then .Adc else .Add) (.Immediate value)) =
      some ({ (cpu.add value adc).1 with
              registers := { (cpu.add value adc).1.registers with
                             a := (cpu.add value adc).2 } },
            (cpu.pc + 2) % 65536, 8) := by
  have hand4 : ∀ n : Nat, n &&& 15 = n % 16 := fun n => by
    have h := Nat.and_pow_two_sub_one_eq_mod n 4
    norm_num at h
    exact h
  have hcin : (if adc && cpu.registers.f.carry then 1 else 0) ≤ 1 := by
    split <;> omega
  refine ⟨?_, ?_, ?_, ?_, ?_, ?_⟩
  · simp only [Cpu.add, u8_overflowing_add]
    omega
  · simp only [Cpu.add, u8_overflowing_add, beq_iff_eq]
    omega
  · simp only [Cpu.add, u8_overflowing_add]
  · simp only [Cpu.add, u8_overflowing_add, decide_eq_true_eq, hand4]
  · simp only [Cpu.add, u8_overflowing_add, Bool.or_eq_true, decide_eq_true_eq]
    omega
  · cases adc <;> rfl

/-- C2 witness: the post-boot CPU (A = 0x01, C flag set), ADC with
operand 0xFF. -/
theorem add_adc_flag_spec_witness :
    ((Cpu.new none [] false).add 0xFF true).2 =
      ((Cpu.new none [] false).registers.a + 0xFF +
        (if true && (Cpu.new none [] false).registers.f.carry then 1 else 0)) % 256 ∧
    (((Cpu.new none [] false).add 0xFF true).1.registers.f.zero = true ↔
      ((Cpu.new none [] false).registers.a + 0xFF +
        (if true && (Cpu.new none [] false).registers.f.carry then 1 else 0)) % 256 = 0) ∧
    ((Cpu.new none [] false).add 0xFF true).1.registers.f.subtraction = false ∧
    (((Cpu.new none [] false).add 0xFF true).1.registers.f.half_carry = true ↔
      (Cpu.new none [] false).registers.a % 16 + 0xFF % 16 +
        (if true && (Cpu.new none [] false).registers.f.carry then 1 else 0) > 15) ∧
    (((Cpu.new none [] false).add 0xFF true).1.registers.f.carry = true ↔
      (Cpu.new none [] false).registers.a + 0xFF +
        (if true && (Cpu.new none [] false).registers.f.carry then 1 else 0) > 255) ∧
    (Cpu.new none [] false).execute (.Arithmetic (if true then .Adc else .Add)
        (.Immediate 0xFF)) =
      some ({ ((Cpu.new none [] false).add 0xFF true).1 with
              registers := { ((Cpu.new none [] false).add 0xFF true).1.registers with
                             a := ((Cpu.new none [] false).add 0xFF true).2 } },
            ((Cpu.new none [] false).pc + 2) % 65536, 8) :=
  add_adc_flag_spec (Cpu.new none [] false) 0xFF true (by decide) (by decide)

/-- C5.  The claim says POP AF succeeds for every stacked word and
masks F's low nibble to zero.  The source's `Registers::set_af` calls
`Flags::from_bits(f).unwrap()`, which panics whenever the popped low
byte has a nonzero low nibble.  Failing input: the word 0x0001 —
`set_af` has no value to return (panic) and the whole POP AF step
crashes instead of writing F = 0x00. -/
theorem pop_af_crash_bug :
    ((Cpu.new none [] false).registers.set_af 0x0001).isNone = true ∧
    popAfCpu.step.isNone = true := by
  constructor <;> decide

/-- C7.  The claim says completing HBlank increments LY first, enters
VBlank at LY = 144 and requests the VBlank interrupt.  The transition
and ordering are real, but no interrupt is ever requested: `Gpu::step`
returns nothing and cannot reach the bus's IF register.  On the failing
input (line 143, HBlank cycle budget crossed during a NOP) the mode
becomes VBlank with LY = 144 while IF stays 0; on a mid-frame line the
mode returns to OAM-scan with LY incremented. -/
theorem gpu_vblank_no_interrupt_bug :
    (hblankEndCpu.step.map fun r => r.1.bus.gpu.mode) = some Mode.VBlank ∧
    (hblankEndCpu.step.map fun r => r.1.bus.gpu.line) = some 144 ∧
    (hblankEndCpu.step.map fun r => r.1.bus.interrupt_flag) = some 0 ∧
    (hblankMidGpu.step 4).mode = Mode.OamScan ∧
    (hblankMidGpu.step 4).line = 101 := by
  refine ⟨?_, ?_, ?_, ?_, ?_⟩ <;> decide

/-- C8.  The claim says undefined opcodes yield the recoverable error
`InvalidOpcode(byte)` which `Cpu::step` propagates to the orchestrator
without crashing in the decoder.  No such error type exists: the
decoder's undefined-opcode arms are `panic!`/`todo!` (a crash inside
the decoder), and `step` calls `.unwrap()` on the decode result rather
than propagating anything.  Failing input: opcode byte 0xD3. -/
theorem invalid_opcode_crash_bug :
    parse_instruction [0xD3, 0, 0, 0] = ParseResult.crash ∧
    parse_instruction [0xD3, 0, 0, 0] ≠ ParseResult.ok [0, 0, 0] .Nop ∧
    invalidOpcodeCpu.step.isNone = true := by
  refine ⟨by decide, by decide, by decide⟩

end GB
